import Mathlib

/-!
Shallow embedding of the Marstek Venus Modbus polling engine
(custom_components/marstek_modbus): the register codec and the retrying
read/write client from helpers/modbus_client.py, and the polling /
health-monitor cycle from coordinator.py.
-/

namespace Marstek

/-- Python runtime value as observed by the coordinator: the primitive
types the snapshot may hold (int, float, bool, str), Python None, and
opaque non-primitive objects (lists, dicts, ...). -/
inductive PyObj where
  | none
  | int (n : Int)
  | float (q : ℚ)
  | bool (b : Bool)
  | str (s : String)
  | list (tag : Nat)
  | dict (tag : Nat)
  deriving DecidableEq, Repr

/-- Mirrors `isinstance(value, (int, float, bool, str))` in
MarstekCoordinator.async_read_value. Python None is not primitive. -/
def isPrimitive : PyObj → Bool
  | .int _ => true
  | .float _ => true
  | .bool _ => true
  | .str _ => true
  | _ => false

/-- Outcome of the data-type dispatch at the end of
MarstekModbusClient.async_read_register: either a returned value
(possibly Python None) or a raised ValueError. -/
inductive DecodeOutcome where
  | ret (v : PyObj)
  | err (msg : String)
  deriving DecidableEq, Repr

/-- High byte then low byte of each register word, as built by the
`char` branch of async_read_register. -/
def regBytes : List Nat → List Nat
  | [] => []
  | r :: rest => ((r >>> 8) &&& 0xFF) :: (r &&& 0xFF) :: regBytes rest

/-- `byte_array.decode("ascii", errors="ignore").rstrip(chr 0)`:
bytes above 0x7F are dropped, trailing NUL characters are stripped. -/
def asciiDecode (regs : List Nat) : String :=
  let bytes := (regBytes regs).filter (fun b => b ≤ 0x7F)
  let trimmed := (bytes.reverse.dropWhile (fun b => b = 0)).reverse
  String.mk (trimmed.map (fun b => Char.ofNat b))

/-- The data-type dispatch of MarstekModbusClient.async_read_register
(lines 283-327), applied to the received register words.  Callers reach
it only with `len(regs) >= count >= 1`; out-of-range accesses are
therefore modelled with a default of 0. -/
def decodeRegs (dataType : String) (regs : List Nat) (bitIndex : Option Int) : DecodeOutcome :=
  if dataType = "int16" then
    let val := regs.headD 0
    .ret (.int (if 0x8000 ≤ val then (val : Int) - 0x10000 else (val : Int)))
  else if dataType = "uint16" then
    .ret (.int (regs.headD 0))
  else if dataType = "int32" then
    if regs.length < 2 then .ret PyObj.none
    else
      let val := ((regs.headD 0) <<< 16) ||| regs.getD 1 0
      .ret (.int (if 0x80000000 ≤ val then (val : Int) - 0x100000000 else (val : Int)))
  else if dataType = "uint32" then
    if regs.length < 2 then .ret PyObj.none
    else .ret (.int (((regs.headD 0) <<< 16) ||| regs.getD 1 0))
  else if dataType = "char" then
    .ret (.str (asciiDecode regs))
  else if dataType = "bit" then
    match bitIndex with
    | Option.none => .err "bit_index must be between 0 and 15 for bit data_type"
    | Option.some i =>
      if 0 ≤ i ∧ i < 16 then
        .ret (.bool (((regs.headD 0) >>> i.toNat) &&& 1 = 1))
      else .err "bit_index must be between 0 and 15 for bit data_type"
  else .err ("Unsupported data_type: " ++ dataType)

/-- A pymodbus response object: error flag and (possibly missing)
register words. -/
structure ModbusResponse where
  isError : Bool
  registers : Option (List Nat)
  deriving DecidableEq, Repr

/-- What the wire yields for one request: no response object at all,
an exception from the underlying client (transport failure or timeout),
or a response object. -/
inductive WireOutcome where
  | noResponse
  | exc
  | resp (r : ModbusResponse)
  deriving DecidableEq, Repr

/-- Environment of one attempt of the retry loop: whether the client
reports connected at the start of the attempt, the result of
async_connect when it has to be invoked, and what the wire returns. -/
structure AttemptEnv where
  connected : Bool
  reconnectOk : Bool
  outcome : WireOutcome
  deriving DecidableEq, Repr

/-- Network actions, used to show which requests reach the device. -/
inductive NetAction where
  | connect
  | readHolding (address count : Int)
  | writeSingle (address value : Int)
  deriving DecidableEq, Repr

/-- Result channel of async_read_register: a returned value (Python None
models the soft failure) or a propagated exception. -/
inductive ReadResult where
  | value (v : PyObj)
  | raised (msg : String)
  deriving DecidableEq, Repr

/-- Default max_retries of async_read_register and async_write_register. -/
def MAX_RETRIES : Nat := 3

/-- Default retry_delay (seconds) of async_read_register. -/
def READ_RETRY_DELAY : ℚ := 1 / 10

/-- Default retry_delay (seconds) of async_write_register. -/
def WRITE_RETRY_DELAY : ℚ := 1 / 5

/-- The `while attempt < max_retries` loop of async_read_register,
with the per-attempt environment indexed by attempt number and the
remaining fuel `max_retries - attempt`.  A ValueError raised by the
data-type dispatch is caught by the `except Exception` handler of the
loop body, so it leads to a retry, not to a propagated exception. -/
def readAttemptLoop (register : Int) (dataType : String) (count : Int)
    (bitIndex : Option Int) (env : Nat → AttemptEnv) :
    Nat → Nat → ReadResult × List NetAction
  | _, 0 => (.value PyObj.none, [])
  | attempt, fuel + 1 =>
    let e := env attempt
    let preActs : List NetAction := if e.connected then [] else [.connect]
    if ¬ e.connected ∧ ¬ e.reconnectOk then
      (.value PyObj.none, preActs)
    else
      let acts := preActs ++ [NetAction.readHolding register count]
      let retry : ReadResult × List NetAction :=
        let rest := readAttemptLoop register dataType count bitIndex env (attempt + 1) fuel
        (rest.1, acts ++ rest.2)
      match e.outcome with
      | .noResponse => retry
      | .exc => retry
      | .resp r =>
        if r.isError then retry
        else
          match r.registers with
          | Option.none => retry
          | Option.some regs =>
            if (regs.length : Int) < count then retry
            else
              match decodeRegs dataType regs bitIndex with
              | .ret v => (.value v, acts)
              | .err _ => retry

/-- MarstekModbusClient.async_read_register: count defaulting, input
validation before any network activity, then the bounded retry loop. -/
def async_read_register (register : Int) (dataType : String) (countArg : Option Int)
    (bitIndex : Option Int) (maxRetries : Nat) (env : Nat → AttemptEnv) :
    ReadResult × List NetAction :=
  let count : Int :=
    match countArg with
    | Option.none => if dataType = "int32" ∨ dataType = "uint32" then 2 else 1
    | Option.some c => c
  if ¬ (0 ≤ register ∧ register ≤ 0xFFFF) then (.value PyObj.none, [])
  else if ¬ (1 ≤ count ∧ count ≤ 125) then (.value PyObj.none, [])
  else readAttemptLoop register dataType count bitIndex env 0 maxRetries

/-- The retry loop of async_write_register (the response's registers
are not inspected, only its error flag). -/
def writeAttemptLoop (register value : Int) (env : Nat → AttemptEnv) :
    Nat → Nat → Bool × List NetAction
  | _, 0 => (false, [])
  | attempt, fuel + 1 =>
    let e := env attempt
    let preActs : List NetAction := if e.connected then [] else [.connect]
    if ¬ e.connected ∧ ¬ e.reconnectOk then
      (false, preActs)
    else
      let acts := preActs ++ [NetAction.writeSingle register value]
      let retry : Bool × List NetAction :=
        let rest := writeAttemptLoop register value env (attempt + 1) fuel
        (rest.1, acts ++ rest.2)
      match e.outcome with
      | .noResponse => retry
      | .exc => retry
      | .resp r => if r.isError then retry else (true, acts)

/-- MarstekModbusClient.async_write_register: input validation before
any network activity, then the bounded retry loop. -/
def async_write_register (register value : Int) (maxRetries : Nat)
    (env : Nat → AttemptEnv) : Bool × List NetAction :=
  if ¬ (0 ≤ register ∧ register ≤ 0xFFFF) then (false, [])
  else if ¬ (0 ≤ value ∧ value ≤ 0xFFFF) then (false, [])
  else writeAttemptLoop register value env 0 maxRetries

/-- Number of read-holding-registers requests in a trace. -/
def readCount (t : List NetAction) : Nat :=
  (t.filter (fun a => match a with | .readHolding _ _ => true | _ => false)).length

/-- The attempt-level failure modes of async_read_register that lead to
a retry before the data-type dispatch is even reached: no response
object, an exception from the client, a device error response, or a
truncated payload (fewer registers than requested). -/
def failedOutcome (count : Int) : WireOutcome → Bool
  | .noResponse => true
  | .exc => true
  | .resp r =>
    r.isError ||
      (match r.registers with
       | Option.none => true
       | Option.some regs => (regs.length : Int) < count)

/-! ## Coordinator (coordinator.py) -/

/-- The fields of a sensor definition dict consulted by the polling
loop of MarstekCoordinator._async_update_data. -/
structure SensorDef where
  key : String
  register : Int
  dataType : String
  countField : Option Int
  scanInterval : Option String
  deriving DecidableEq, Repr

/-- What one call of MarstekCoordinator.async_read_value observes:
an asyncio.TimeoutError from the 10 s wait_for, some other exception,
or the value returned by the client's async_read_register. -/
inductive ReadValueOutcome where
  | timeout
  | exc
  | result (raw : PyObj)
  deriving DecidableEq, Repr

/-- MarstekCoordinator.async_read_value (with track_failure = True, as
in the polling loop): returns the value only when it is an instance of
int, float, bool or str, otherwise None; the second component records
whether the cycle's timeout counter was incremented. -/
def async_read_value (outcome : ReadValueOutcome) : Option PyObj × Bool :=
  match outcome with
  | .timeout => (Option.none, true)
  | .exc => (Option.none, false)
  | .result raw =>
    if isPrimitive raw then (Option.some raw, false) else (Option.none, false)

/-- The persistent coordinator state touched by _async_update_data:
the data mapping (Snapshot), the per-key last-update timestamps, and
the connection-health counters.  Time is in seconds. -/
structure CoordState where
  data : String → Option PyObj
  lastUpdateTimes : String → Option ℚ
  consecutiveFailures : Nat
  connectionSuspended : Bool
  suspensionResetTime : Option ℚ
  consecutiveTimeoutCycles : Nat
  lastSuccessfulRead : Option ℚ

/-- Per-cycle environment: the entity-registry disabled flag per key,
the outcome of an async_read_value call per key, and the results of
the successive async_reconnect calls of the cycle. -/
structure CycleEnv where
  isDisabled : String → Bool
  readOutcome : String → ReadValueOutcome
  reconnectOk : Nat → Bool

/-- self._max_consecutive_failures. -/
def MAX_CONSECUTIVE_FAILURES : Nat := 5

/-- self._max_consecutive_timeout_cycles. -/
def MAX_CONSECUTIVE_TIMEOUT_CYCLES : Nat := 3

/-- self._timeout_ratio_reconnect_threshold. -/
def TIMEOUT_RATIO_RECONNECT_THRESHOLD : ℚ := 1 / 2

/-- timedelta(minutes=5), in seconds. -/
def SUSPENSION_COOLDOWN_SECONDS : ℚ := 300

/-- The per-signal decision of the polling loop: skip a disabled entity
(unless it is a dependency key), skip when no scan interval is defined,
skip when the last update is more recent than the interval, or attempt
a read. -/
inductive PollDecision where
  | skipDisabled
  | skipNoInterval
  | skipRecent
  | attempt
  deriving DecidableEq, Repr

/-- Decision logic of one iteration of the polling loop (coordinator.py
lines 406-452).  `interval_name` being falsy (absent or empty) and a
missing entry in scan_intervals both leave the interval undefined. -/
def pollDecision (now : ℚ) (scanIntervals : String → Option Int)
    (depKeys : String → Bool) (lastUpdateTimes : String → Option ℚ)
    (isDisabledHere : Bool) (sensor : SensorDef) : PollDecision :=
  if isDisabledHere ∧ ¬ depKeys sensor.key then .skipDisabled
  else
    let interval : Option Int :=
      match sensor.scanInterval with
      | Option.none => Option.none
      | Option.some nm => if nm = "" then Option.none else scanIntervals nm
    match interval with
    | Option.none => .skipNoInterval
    | Option.some interval =>
      match lastUpdateTimes sensor.key with
      | Option.some t => if now - t < (interval : ℚ) then .skipRecent else .attempt
      | Option.none => .attempt

/-- The mutable per-cycle accumulators of _async_update_data:
updated_data, self._last_update_times (mutated inside the loop),
attempted_reads, successful_reads, self._timeouts_in_cycle, and the
trace of keys for which a read was issued. -/
structure CycleAcc where
  updatedData : List (String × PyObj)
  lastUpdateTimes : String → Option ℚ
  attemptedReads : Nat
  successfulReads : Nat
  timeoutsInCycle : Nat
  readKeys : List String

/-- The read-attempt body of the polling loop (lines 451-463):
count the attempt, call async_read_value, and on success record the
value in updated_data, stamp the last-update time and count the
success. -/
def attemptRead (now : ℚ) (env : CycleEnv) (acc : CycleAcc) (key : String) : CycleAcc :=
  let res := async_read_value (env.readOutcome key)
  let acc1 : CycleAcc :=
    { acc with
      attemptedReads := acc.attemptedReads + 1,
      timeoutsInCycle := acc.timeoutsInCycle + (if res.2 then 1 else 0),
      readKeys := acc.readKeys ++ [key] }
  match res.1 with
  | Option.some v =>
    { acc1 with
      updatedData := acc1.updatedData ++ [(key, v)],
      lastUpdateTimes := fun k => if k = key then Option.some now else acc1.lastUpdateTimes k,
      successfulReads := acc1.successfulReads + 1 }
  | Option.none => acc1

/-- One iteration of the polling loop over a sensor definition. -/
def processSensor (now : ℚ) (scanIntervals : String → Option Int)
    (depKeys : String → Bool) (env : CycleEnv) (acc : CycleAcc)
    (sensor : SensorDef) : CycleAcc :=
  match pollDecision now scanIntervals depKeys acc.lastUpdateTimes
      (env.isDisabled sensor.key) sensor with
  | .attempt => attemptRead now env acc sensor.key
  | _ => acc

/-- dict.update: assign the accumulated (key, value) pairs left to
right over the previous mapping. -/
def applySnapshot (upd : List (String × PyObj)) (d : String → Option PyObj) :
    String → Option PyObj :=
  upd.foldl (fun d kv => fun k => if k = kv.1 then Option.some kv.2 else d k) d

/-- The connection retry logic of _async_update_data (lines 465-537),
run after the polling pass on the cycle's counters.  Returns the new
state and the number of reconnect attempts made here; `base` indexes
into the cycle's sequence of reconnect results. -/
def healthUpdate (st : CoordState) (now : ℚ) (attempted succeeded timeouts : Nat)
    (reconnectOk : Nat → Bool) (base : Nat) : CoordState × Nat :=
  if 0 < attempted then
    if 0 < succeeded then
      let st1 := { st with consecutiveFailures := 0, connectionSuspended := false,
                            lastSuccessfulRead := Option.some now }
      let tc :=
        if timeouts ≠ 0 ∧
            TIMEOUT_RATIO_RECONNECT_THRESHOLD ≤ (timeouts : ℚ) / (attempted : ℚ) then
          st.consecutiveTimeoutCycles + 1
        else 0
      let st2 := { st1 with consecutiveTimeoutCycles := tc }
      if MAX_CONSECUTIVE_TIMEOUT_CYCLES ≤ tc then
        if reconnectOk base then ({ st2 with consecutiveTimeoutCycles := 0 }, 1)
        else (st2, 1)
      else (st2, 0)
    else
      let st1 := { st with consecutiveFailures := st.consecutiveFailures + 1,
                            consecutiveTimeoutCycles := 0 }
      let st2 := if reconnectOk base then { st1 with consecutiveFailures := 0 } else st1
      if MAX_CONSECUTIVE_FAILURES ≤ st2.consecutiveFailures then
        ({ st2 with connectionSuspended := true,
                    suspensionResetTime := Option.some (now + SUSPENSION_COOLDOWN_SECONDS) }, 1)
      else (st2, 1)
  else
    ({ st with consecutiveTimeoutCycles := 0 }, 0)

/-- Result of one _async_update_data call: the new state plus the
cycle's observable report. -/
structure CycleResult where
  state : CoordState
  readKeys : List String
  reconnects : Nat
  attempted : Nat
  succeeded : Nat
  timeouts : Nat

/-- The polling pass plus health logic plus final data update of
_async_update_data, for a cycle that was not skipped. -/
def runCycle (st : CoordState) (now : ℚ) (scanIntervals : String → Option Int)
    (defs : List SensorDef) (depKeys : String → Bool) (env : CycleEnv)
    (base : Nat) : CycleResult :=
  let acc0 : CycleAcc :=
    { updatedData := [], lastUpdateTimes := st.lastUpdateTimes,
      attemptedReads := 0, successfulReads := 0, timeoutsInCycle := 0, readKeys := [] }
  let acc := defs.foldl (processSensor now scanIntervals depKeys env) acc0
  let hu := healthUpdate st now acc.attemptedReads acc.successfulReads
      acc.timeoutsInCycle env.reconnectOk base
  let stH := hu.1
  let stFinal := { stH with data := applySnapshot acc.updatedData stH.data,
                            lastUpdateTimes := acc.lastUpdateTimes }
  { state := stFinal,
    readKeys := acc.readKeys,
    reconnects := base + hu.2,
    attempted := acc.attemptedReads,
    succeeded := acc.successfulReads,
    timeouts := acc.timeoutsInCycle }

/-- MarstekCoordinator._async_update_data.  While suspended: before the
deadline the cycle returns immediately; after it, the suspension flag
and failure streak are cleared, one reconnect is attempted, and only a
successful reconnect lets the cycle proceed to the polling pass. -/
def updateData (st : CoordState) (now : ℚ) (scanIntervals : String → Option Int)
    (defs : List SensorDef) (depKeys : String → Bool) (env : CycleEnv) : CycleResult :=
  if st.connectionSuspended then
    match st.suspensionResetTime with
    | Option.some reset =>
      if reset < now then
        let st1 := { st with connectionSuspended := false, consecutiveFailures := 0 }
        if env.reconnectOk 0 then
          runCycle st1 now scanIntervals defs depKeys env 1
        else
          { state := st1, readKeys := [], reconnects := 1,
            attempted := 0, succeeded := 0, timeouts := 0 }
      else
        { state := st, readKeys := [], reconnects := 0,
          attempted := 0, succeeded := 0, timeouts := 0 }
    | Option.none =>
      { state := st, readKeys := [], reconnects := 0,
        attempted := 0, succeeded := 0, timeouts := 0 }
  else
    runCycle st now scanIntervals defs depKeys env 0

/-! ## Theorems -/

/-- C2: decode with dtype int16 on a single word w returns w - 0x10000 when
w ≥ 0x8000 and w otherwise; uint16 returns the word verbatim; int32/uint32
on two words [hi, lo] return the big-endian concatenation hi <<< 16 ||| lo
(which equals 2^16 * hi + lo), int32 applying two's complement over 32
bits. -/
theorem decode_numeric_types (w hi lo : Nat) (_hw : w < 0x10000) (hlo : lo < 0x10000) :
    decodeRegs "int16" [w] Option.none
      = .ret (.int (if 0x8000 ≤ w then (w : Int) - 0x10000 else (w : Int)))
    ∧ decodeRegs "uint16" [w] Option.none = .ret (.int (w : Int))
    ∧ decodeRegs "uint32" [hi, lo] Option.none
      = .ret (.int (((hi <<< 16) ||| lo : Nat) : Int))
    ∧ decodeRegs "int32" [hi, lo] Option.none
      = .ret (.int (if 0x80000000 ≤ ((hi <<< 16) ||| lo : Nat)
          then (((hi <<< 16) ||| lo : Nat) : Int) - 0x100000000
          else (((hi <<< 16) ||| lo : Nat) : Int)))
    ∧ ((hi <<< 16) ||| lo : Nat) = 2 ^ 16 * hi + lo := by
  refine ⟨rfl, rfl, rfl, rfl, ?_⟩
  have h2 : lo < 2 ^ 16 := lt_of_lt_of_le hlo (by norm_num)
  rw [Nat.shiftLeft_eq, Nat.mul_comm, ← Nat.mul_add_lt_is_or h2 hi]

/-- C2 witness: decode(int16, 0x8000) = -32768 and
decode(int32, [0xFFFF, 0xFFFF]) = -1. -/
theorem decode_numeric_types_witness :
    decodeRegs "int16" [0x8000] Option.none = .ret (.int (-32768))
    ∧ decodeRegs "int32" [0xFFFF, 0xFFFF] Option.none = .ret (.int (-1)) := by
  have h := decode_numeric_types 0x8000 0xFFFF 0xFFFF (by norm_num) (by norm_num)
  refine ⟨?_, ?_⟩
  · rw [h.1]; decide
  · rw [h.2.2.2.1]; decide

/-- C7: a read with address outside 0-65535 or count outside 1-125, and a
write with address outside 0-65535 or value outside 0-65535, are rejected
before any I/O: the result is the failure value and the network trace is
empty (no connect, send, or receive). -/
theorem validation_rejected_before_io (register count value : Int) (dataType : String)
    (bitIndex : Option Int) (env : Nat → AttemptEnv) :
    ((register < 0 ∨ 0xFFFF < register ∨ count < 1 ∨ 125 < count) →
      async_read_register register dataType (Option.some count) bitIndex MAX_RETRIES env
        = (.value PyObj.none, []))
    ∧ ((register < 0 ∨ 0xFFFF < register ∨ value < 0 ∨ 0xFFFF < value) →
      async_write_register register value MAX_RETRIES env = (false, [])) := by
  constructor
  · intro h
    simp only [async_read_register]
    by_cases hr : 0 ≤ register ∧ register ≤ 0xFFFF
    · rw [if_neg (not_not_intro hr), if_pos (show ¬ (1 ≤ count ∧ count ≤ 125) by omega)]
    · rw [if_pos hr]
  · intro h
    simp only [async_write_register]
    by_cases hr : 0 ≤ register ∧ register ≤ 0xFFFF
    · rw [if_neg (not_not_intro hr), if_pos (show ¬ (0 ≤ value ∧ value ≤ 0xFFFF) by omega)]
    · rw [if_pos hr]

/-- Splitting the request count of a trace over concatenation. -/
theorem readCount_append (a b : List NetAction) :
    readCount (a ++ b) = readCount a + readCount b := by
  simp [readCount, List.filter_append]

/-- One attempt of the read loop that actually issues a request (the
client is connected, or reconnects successfully) and yields no value:
either one of the pre-decode failure modes, or a well-formed response
whose data-type dispatch raises (the exception being caught by the
attempt's handler). -/
def attemptNoValue (dataType : String) (count : Int) (bitIndex : Option Int)
    (e : AttemptEnv) : Prop :=
  (e.connected = true ∨ e.reconnectOk = true) ∧
    (failedOutcome count e.outcome = true ∨
      ∃ regs msg, e.outcome = .resp ⟨false, Option.some regs⟩ ∧
        count ≤ (regs.length : Int) ∧ decodeRegs dataType regs bitIndex = .err msg)

/-- Unfolding of one failing attempt: the loop recurses on the next
attempt with one more read request (and possibly a connect) in front of
the trace. -/
theorem readAttemptLoop_retry_step (register : Int) (dataType : String) (count : Int)
    (bitIndex : Option Int) (env : Nat → AttemptEnv) (attempt n : Nat)
    (hstep : attemptNoValue dataType count bitIndex (env attempt)) :
    readAttemptLoop register dataType count bitIndex env attempt (n + 1)
      = ((readAttemptLoop register dataType count bitIndex env (attempt + 1) n).1,
        ((if (env attempt).connected then [] else [NetAction.connect])
            ++ [NetAction.readHolding register count])
          ++ (readAttemptLoop register dataType count bitIndex env (attempt + 1) n).2) := by
  obtain ⟨hconn, hfail⟩ := hstep
  simp only [readAttemptLoop]
  rw [if_neg (by tauto)]
  split
  · rfl
  · rfl
  · rename_i r heq
    split
    · rfl
    · rename_i hie
      split
      · rfl
      · rename_i regs hregs
        split
        · rfl
        · rename_i hnlt
          split
          · rename_i v hdec2
            exfalso
            rcases hfail with hfo | ⟨regs2, msg, heo, hlen2, hdec⟩
            · rw [heq] at hfo
              simp only [failedOutcome, hregs, Bool.or_eq_true, decide_eq_true_eq] at hfo
              rcases hfo with hfo | hfo
              · exact hie hfo
              · exact hnlt hfo
            · rw [heq] at heo
              have hr2 : r.registers = Option.some regs2 :=
                congrArg ModbusResponse.registers (WireOutcome.resp.inj heo)
              rw [hregs] at hr2
              have h3 : regs = regs2 := Option.some.inj hr2
              subst h3
              rw [hdec2] at hdec
              exact DecodeOutcome.noConfusion hdec
          · rfl

/-- When every remaining attempt issues a request and yields no value,
the loop consumes all its fuel, issues exactly one read request per
attempt, and returns the soft failure None. -/
theorem readAttemptLoop_noValue (register : Int) (dataType : String) (count : Int)
    (bitIndex : Option Int) (env : Nat → AttemptEnv) (fuel attempt : Nat)
    (h : ∀ i, attempt ≤ i → i < attempt + fuel →
        attemptNoValue dataType count bitIndex (env i)) :
    (readAttemptLoop register dataType count bitIndex env attempt fuel).1
        = .value PyObj.none
    ∧ readCount (readAttemptLoop register dataType count bitIndex env attempt fuel).2
        = fuel := by
  induction fuel generalizing attempt with
  | zero => exact ⟨rfl, rfl⟩
  | succ n ih =>
    have hone : readCount ((if (env attempt).connected then [] else [NetAction.connect])
        ++ [NetAction.readHolding register count]) = 1 := by
      by_cases hc : (env attempt).connected <;> simp [hc, readCount]
    have hstep := readAttemptLoop_retry_step register dataType count bitIndex env attempt n
      (h attempt le_rfl (by omega))
    have hrest := ih (attempt + 1) (fun i h1 h2 => h i (by omega) (by omega))
    rw [hstep]
    refine ⟨hrest.1, ?_⟩
    simp only [readCount_append, hone, hrest.2]
    omega

/-- C8: a read whose individual attempts all fail (transport exception or
timeout, device error response, truncated payload, or no response) is
retried up to MAX_RETRIES = 3 attempts, with READ_RETRY_DELAY between
them, and then returns the soft failure None to the caller instead of
raising. -/
theorem read_retries_then_soft_failure (register count : Int) (dataType : String)
    (bitIndex : Option Int) (env : Nat → AttemptEnv)
    (hreg : 0 ≤ register ∧ register ≤ 0xFFFF) (hcount : 1 ≤ count ∧ count ≤ 125)
    (hfail : ∀ i, i < MAX_RETRIES → (env i).connected = true
        ∧ failedOutcome count (env i).outcome = true) :
    (async_read_register register dataType (Option.some count) bitIndex
        MAX_RETRIES env).1 = .value PyObj.none
    ∧ readCount (async_read_register register dataType (Option.some count) bitIndex
        MAX_RETRIES env).2 = MAX_RETRIES
    ∧ READ_RETRY_DELAY = 1 / 10 := by
  have hloop := readAttemptLoop_noValue register dataType count bitIndex env MAX_RETRIES 0
    (by
      intro i h1i h2i
      rw [Nat.zero_add] at h2i
      exact ⟨Or.inl (hfail i h2i).1, Or.inl (hfail i h2i).2⟩)
  simp only [async_read_register]
  rw [if_neg (not_not_intro hreg), if_neg (not_not_intro hcount)]
  exact ⟨hloop.1, hloop.2, rfl⟩

/-- C8 witness: a device that never answers any of the three attempts. -/
theorem read_retries_then_soft_failure_witness :
    (async_read_register 1 "uint16" (Option.some 1) Option.none MAX_RETRIES
        (fun _ => ⟨true, true, .noResponse⟩)).1 = .value PyObj.none
    ∧ readCount (async_read_register 1 "uint16" (Option.some 1) Option.none MAX_RETRIES
        (fun _ => ⟨true, true, .noResponse⟩)).2 = MAX_RETRIES
    ∧ READ_RETRY_DELAY = 1 / 10 :=
  read_retries_then_soft_failure 1 1 "uint16" Option.none
    (fun _ => ⟨true, true, .noResponse⟩) (by omega) (by omega) (fun i _ => ⟨rfl, rfl⟩)

/-- A bit read with an absent or out-of-range bit index raises ValueError
in the data-type dispatch. -/
theorem decodeRegs_bit_err (regs : List Nat) (bitIndex : Option Int)
    (hbad : bitIndex = Option.none
      ∨ ∃ i, bitIndex = Option.some i ∧ (i < 0 ∨ 16 ≤ i)) :
    decodeRegs "bit" regs bitIndex
      = .err "bit_index must be between 0 and 15 for bit data_type" := by
  rcases hbad with hb | ⟨i, hb, hr⟩
  · subst hb; rfl
  · subst hb
    have hn : ¬ (0 ≤ i ∧ i < 16) := by omega
    simp [decodeRegs, hn]

/-- C9 (amended): a bit read whose caller-supplied bit index is absent or
outside 0-15 raises ValueError inside the data-type dispatch, but the
retry loop's exception handler catches it: with well-formed device
responses the read is retried MAX_RETRIES = 3 times and then returns the
soft failure None to the caller; no exception surfaces. -/
theorem bad_bit_index_caught_soft_failure (register count : Int) (bitIndex : Option Int)
    (env : Nat → AttemptEnv)
    (hreg : 0 ≤ register ∧ register ≤ 0xFFFF) (hcount : 1 ≤ count ∧ count ≤ 125)
    (hbad : bitIndex = Option.none
      ∨ ∃ i, bitIndex = Option.some i ∧ (i < 0 ∨ 16 ≤ i))
    (hresp : ∀ i, i < MAX_RETRIES → (env i).connected = true ∧
        ∃ regs, (env i).outcome = .resp ⟨false, Option.some regs⟩
          ∧ count ≤ (regs.length : Int)) :
    (async_read_register register "bit" (Option.some count) bitIndex
        MAX_RETRIES env).1 = .value PyObj.none
    ∧ readCount (async_read_register register "bit" (Option.some count) bitIndex
        MAX_RETRIES env).2 = MAX_RETRIES := by
  have hloop := readAttemptLoop_noValue register "bit" count bitIndex env MAX_RETRIES 0
    (by
      intro i h1i h2i
      rw [Nat.zero_add] at h2i
      obtain ⟨hc, regs, ho, hlen⟩ := hresp i h2i
      exact ⟨Or.inl hc, Or.inr ⟨regs, _, ho, hlen, decodeRegs_bit_err regs bitIndex hbad⟩⟩)
  simp only [async_read_register]
  rw [if_neg (not_not_intro hreg), if_neg (not_not_intro hcount)]
  exact ⟨hloop.1, hloop.2⟩

/-- C9 witness: bit read with no bit index against a device answering
every request with one register word. -/
theorem bad_bit_index_caught_soft_failure_witness :
    (async_read_register 100 "bit" (Option.some 1) Option.none MAX_RETRIES
        (fun _ => ⟨true, true, .resp ⟨false, Option.some [5]⟩⟩)).1 = .value PyObj.none
    ∧ readCount (async_read_register 100 "bit" (Option.some 1) Option.none MAX_RETRIES
        (fun _ => ⟨true, true, .resp ⟨false, Option.some [5]⟩⟩)).2 = MAX_RETRIES :=
  bad_bit_index_caught_soft_failure 100 1 Option.none
    (fun _ => ⟨true, true, .resp ⟨false, Option.some [5]⟩⟩)
    (by omega) (by omega) (Or.inl rfl)
    (fun i _ => ⟨rfl, [5], rfl, by decide⟩)

/-- C9 counterexample: the claim says the bad bit index raises a validation
error that surfaces immediately and synchronously, without retries and
without being converted into a soft failure; in fact the read issues three
requests and returns None. -/
theorem bad_bit_index_claim_counterexample :
    async_read_register 200 "bit" (Option.some 1) Option.none MAX_RETRIES
        (fun _ => ⟨true, true, .resp ⟨false, Option.some [8]⟩⟩)
      = (.value PyObj.none,
         [.readHolding 200 1, .readHolding 200 1, .readHolding 200 1]) := by
  rfl

/-- A value handed back by async_read_value is an instance of int, float,
bool or str. -/
theorem async_read_value_prim (o : ReadValueOutcome) (v : PyObj)
    (h : (async_read_value o).1 = Option.some v) : isPrimitive v = true := by
  cases o with
  | timeout => exact absurd h (by simp [async_read_value])
  | exc => exact absurd h (by simp [async_read_value])
  | result raw =>
    by_cases hp : isPrimitive raw
    · have : raw = v := by
        simpa [async_read_value, hp] using h
      rw [← this]; exact hp
    · exact absurd h (by simp [async_read_value, hp])

/-- A primitive value is not the Python None marker. -/
theorem isPrimitive_ne_none (v : PyObj) (h : isPrimitive v = true) : v ≠ PyObj.none := by
  cases v <;> simp_all [isPrimitive]

/-- processSensor touches updated_data only by appending the result of a
successful read of the sensor's key. -/
theorem processSensor_updatedData (now : ℚ) (scanIntervals : String → Option Int)
    (depKeys : String → Bool) (env : CycleEnv) (acc : CycleAcc) (sensor : SensorDef) :
    (processSensor now scanIntervals depKeys env acc sensor).updatedData = acc.updatedData
    ∨ ∃ v, (async_read_value (env.readOutcome sensor.key)).1 = Option.some v
        ∧ (processSensor now scanIntervals depKeys env acc sensor).updatedData
          = acc.updatedData ++ [(sensor.key, v)] := by
  unfold processSensor
  cases pollDecision now scanIntervals depKeys acc.lastUpdateTimes
      (env.isDisabled sensor.key) sensor with
  | attempt =>
    simp only [attemptRead]
    cases hr : (async_read_value (env.readOutcome sensor.key)).1 with
    | some v => exact Or.inr ⟨v, rfl, rfl⟩
    | none => exact Or.inl rfl
  | skipDisabled => exact Or.inl rfl
  | skipNoInterval => exact Or.inl rfl
  | skipRecent => exact Or.inl rfl

/-- Every pair in the polling pass's updated_data is either inherited
from the initial accumulator or produced by a successful read of its
key. -/
theorem foldl_updatedData_mem (now : ℚ) (scanIntervals : String → Option Int)
    (depKeys : String → Bool) (env : CycleEnv) (defs : List SensorDef) :
    ∀ (acc : CycleAcc) (p : String × PyObj),
      p ∈ (defs.foldl (processSensor now scanIntervals depKeys env) acc).updatedData →
      p ∈ acc.updatedData
      ∨ (async_read_value (env.readOutcome p.1)).1 = Option.some p.2 := by
  induction defs with
  | nil => exact fun acc p hp => Or.inl hp
  | cons s rest ih =>
    intro acc p hp
    rcases ih (processSensor now scanIntervals depKeys env acc s) p hp with h | h
    · rcases processSensor_updatedData now scanIntervals depKeys env acc s with he | ⟨v, hv, he⟩
      · rw [he] at h
        exact Or.inl h
      · rw [he] at h
        rcases List.mem_append.mp h with h | h
        · exact Or.inl h
        · have hp2 : p = (s.key, v) := List.mem_singleton.mp h
          subst hp2
          exact Or.inr hv
    · exact Or.inr h

/-- Unfolding of applySnapshot over a head pair. -/
theorem applySnapshot_cons (kv : String × PyObj) (rest : List (String × PyObj))
    (d : String → Option PyObj) :
    applySnapshot (kv :: rest) d
      = applySnapshot rest (fun k2 => if k2 = kv.1 then Option.some kv.2 else d k2) := rfl

/-- dict.update leaves keys that do not occur in the update untouched. -/
theorem applySnapshot_not_mem (upd : List (String × PyObj)) :
    ∀ (d : String → Option PyObj) (k : String), (∀ v, (k, v) ∉ upd) →
      applySnapshot upd d k = d k := by
  induction upd with
  | nil => exact fun d k _ => rfl
  | cons kv rest ih =>
    intro d k h
    have hk : k ≠ kv.1 := by
      intro he
      exact h kv.2 (by
        have : (k, kv.2) = kv := by rw [he]
        rw [this]
        exact List.mem_cons_self kv rest)
    rw [applySnapshot_cons, ih _ k (fun v hv => h v (List.mem_cons_of_mem kv hv))]
    simp [hk]

/-- dict.update either leaves a key untouched or assigns it one of the
updated pairs' values. -/
theorem applySnapshot_cases (upd : List (String × PyObj)) :
    ∀ (d : String → Option PyObj) (k : String),
      applySnapshot upd d k = d k
      ∨ ∃ v, (k, v) ∈ upd ∧ applySnapshot upd d k = Option.some v := by
  induction upd with
  | nil => exact fun d k => Or.inl rfl
  | cons kv rest ih =>
    intro d k
    rcases ih (fun k2 => if k2 = kv.1 then Option.some kv.2 else d k2) k with h | ⟨v, hv, he⟩
    · by_cases hk : k = kv.1
      · refine Or.inr ⟨kv.2, ?_, ?_⟩
        · have : (k, kv.2) = kv := by rw [hk]
          rw [this]
          exact List.mem_cons_self kv rest
        · rw [applySnapshot_cons, h]
          simp [hk]
      · refine Or.inl ?_
        rw [applySnapshot_cons, h]
        simp [hk]
    · exact Or.inr ⟨v, List.mem_cons_of_mem kv hv, he⟩

/-- The health logic does not touch the data mapping. -/
theorem healthUpdate_data (st : CoordState) (now : ℚ) (a s t : Nat)
    (ro : Nat → Bool) (b : Nat) : (healthUpdate st now a s t ro b).1.data = st.data := by
  simp only [healthUpdate]
  split_ifs <;> rfl

/-- Every _async_update_data call either leaves the data mapping alone
(a skipped cycle) or runs runCycle from a state with the same data. -/
theorem updateData_data_cases (st : CoordState) (now : ℚ)
    (scanIntervals : String → Option Int) (defs : List SensorDef)
    (depKeys : String → Bool) (env : CycleEnv) :
    (updateData st now scanIntervals defs depKeys env).state.data = st.data
    ∨ ∃ st0 base, st0.data = st.data
        ∧ updateData st now scanIntervals defs depKeys env
          = runCycle st0 now scanIntervals defs depKeys env base := by
  unfold updateData
  split
  · split
    · split
      · split
        · exact Or.inr
            ⟨{ st with connectionSuspended := false, consecutiveFailures := 0 }, 1, rfl, rfl⟩
        · exact Or.inl rfl
      · exact Or.inl rfl
    · exact Or.inl rfl
  · exact Or.inr ⟨st, 0, rfl, rfl⟩

/-- The data mapping after a non-skipped cycle holds, at each key, either
its previous value or the value of a successful read of that key. -/
theorem runCycle_data_cases (st : CoordState) (now : ℚ)
    (scanIntervals : String → Option Int) (defs : List SensorDef)
    (depKeys : String → Bool) (env : CycleEnv) (base : Nat) (k : String) :
    (runCycle st now scanIntervals defs depKeys env base).state.data k = st.data k
    ∨ ∃ v, (async_read_value (env.readOutcome k)).1 = Option.some v
        ∧ (runCycle st now scanIntervals defs depKeys env base).state.data k
          = Option.some v := by
  simp only [runCycle]
  rw [healthUpdate_data]
  rcases applySnapshot_cases _ st.data k with h | ⟨v, hv, he⟩
  · exact Or.inl h
  · rcases foldl_updatedData_mem now scanIntervals depKeys env defs _ (k, v) hv with h | h
    · simp at h
    · exact Or.inr ⟨v, h, he⟩

/-- Witness fixtures: a one-signal catalog with a fast tier, a state
holding one previous value, and per-cycle environments. -/
def wIntervals : String → Option Int :=
  fun nm => if nm = "fast" then Option.some 10 else Option.none

def wSensorA : SensorDef :=
  { key := "a", register := 100, dataType := "uint16",
    countField := Option.none, scanInterval := Option.some "fast" }

def wData : String → Option PyObj :=
  fun k => if k = "a" then Option.some (PyObj.int 7) else Option.none

def wState : CoordState :=
  { data := wData, lastUpdateTimes := fun _ => Option.none,
    consecutiveFailures := 0, connectionSuspended := false,
    suspensionResetTime := Option.none, consecutiveTimeoutCycles := 0,
    lastSuccessfulRead := Option.none }

def wEmptyState : CoordState :=
  { data := fun _ => Option.none, lastUpdateTimes := fun _ => Option.none,
    consecutiveFailures := 0, connectionSuspended := false,
    suspensionResetTime := Option.none, consecutiveTimeoutCycles := 0,
    lastSuccessfulRead := Option.none }

def wEnvFailA : CycleEnv :=
  { isDisabled := fun _ => false, readOutcome := fun _ => ReadValueOutcome.exc,
    reconnectOk := fun _ => false }

def wEnvOkA : CycleEnv :=
  { isDisabled := fun _ => false,
    readOutcome := fun _ => ReadValueOutcome.result (PyObj.int 5),
    reconnectOk := fun _ => false }

/-- C1: if the read of a key fails in a cycle, the coordinator's data
mapping afterwards holds exactly the value it held for that key before
the cycle; and every key after the cycle holds either its previous value
or a primitive, non-None value from a successful read — no key is ever
set to a null or error marker. -/
theorem snapshot_preserved_on_failed_read (st : CoordState) (now : ℚ)
    (scanIntervals : String → Option Int) (defs : List SensorDef)
    (depKeys : String → Bool) (env : CycleEnv) (k : String)
    (hfail : (async_read_value (env.readOutcome k)).1 = Option.none) :
    (updateData st now scanIntervals defs depKeys env).state.data k = st.data k
    ∧ ∀ k2 v, (updateData st now scanIntervals defs depKeys env).state.data k2
        = Option.some v →
      (updateData st now scanIntervals defs depKeys env).state.data k2 = st.data k2
      ∨ (isPrimitive v = true ∧ v ≠ PyObj.none) := by
  rcases updateData_data_cases st now scanIntervals defs depKeys env
    with hd | ⟨st0, base, hd0, heq⟩
  · exact ⟨congrFun hd k, fun k2 v _ => Or.inl (congrFun hd k2)⟩
  · constructor
    · rcases runCycle_data_cases st0 now scanIntervals defs depKeys env base k
        with h | ⟨v, hv, _⟩
      · rw [heq, h]
        exact congrFun hd0 k
      · rw [hfail] at hv
        exact Option.noConfusion hv
    · intro k2 v h
      rcases runCycle_data_cases st0 now scanIntervals defs depKeys env base k2
        with h0 | ⟨v2, hv2, he2⟩
      · refine Or.inl ?_
        rw [heq, h0]
        exact congrFun hd0 k2
      · have hv2v : v2 = v := by
          rw [heq, he2] at h
          exact Option.some.inj h
        subst hv2v
        have hp := async_read_value_prim _ _ hv2
        exact Or.inr ⟨hp, isPrimitive_ne_none _ hp⟩

/-- C1 witness: the only signal's read raises, and the previous value of
its key survives the cycle. -/
theorem snapshot_preserved_on_failed_read_witness :
    (updateData wState 0 wIntervals [wSensorA] (fun _ => false) wEnvFailA).state.data "a"
      = Option.some (PyObj.int 7) := by
  have h := snapshot_preserved_on_failed_read wState 0 wIntervals [wSensorA]
    (fun _ => false) wEnvFailA "a" rfl
  rw [h.1]
  rfl

/-- C10: async_read_value returns None whenever the decoded response is
not an int, float, bool or str, and consequently every value the polling
cycle stores into the coordinator's data mapping is such a primitive. -/
theorem snapshot_values_primitive (st : CoordState) (now : ℚ)
    (scanIntervals : String → Option Int) (defs : List SensorDef)
    (depKeys : String → Bool) (env : CycleEnv)
    (hinv : ∀ k v, st.data k = Option.some v → isPrimitive v = true) :
    (∀ raw, isPrimitive raw = false →
      (async_read_value (ReadValueOutcome.result raw)).1 = Option.none)
    ∧ ∀ k v, (updateData st now scanIntervals defs depKeys env).state.data k
        = Option.some v → isPrimitive v = true := by
  constructor
  · intro raw hraw
    simp [async_read_value, hraw]
  · intro k v h
    rcases updateData_data_cases st now scanIntervals defs depKeys env
      with hd | ⟨st0, base, hd0, heq⟩
    · exact hinv k v (by rw [← congrFun hd k]; exact h)
    · rcases runCycle_data_cases st0 now scanIntervals defs depKeys env base k
        with h0 | ⟨v2, hv2, he2⟩
      · apply hinv k v
        rw [← congrFun hd0 k, ← h0, ← heq]
        exact h
      · have hv2v : v2 = v := by
          rw [heq, he2] at h
          exact Option.some.inj h
        subst hv2v
        exact async_read_value_prim _ _ hv2

/-- C10 witness: a non-primitive decode result is dropped, and a stored
value is primitive. -/
theorem snapshot_values_primitive_witness :
    (async_read_value (ReadValueOutcome.result (PyObj.list 0))).1 = Option.none
    ∧ isPrimitive (PyObj.int 5) = true := by
  have h := snapshot_values_primitive wEmptyState 0 wIntervals [wSensorA]
    (fun _ => false) wEnvOkA (fun k v hv => Option.noConfusion hv)
  exact ⟨h.1 (PyObj.list 0) rfl, h.2 "a" (PyObj.int 5) (by rfl)⟩

/-- An attempted read bumps the attempted counter by one. -/
theorem attemptRead_attempted (now : ℚ) (env : CycleEnv) (acc : CycleAcc) (key : String) :
    (attemptRead now env acc key).attemptedReads = acc.attemptedReads + 1 := by
  simp only [attemptRead]
  cases (async_read_value (env.readOutcome key)).1 <;> rfl

/-- C3: for an enabled pollable signal with a defined tier interval, the
polling loop skips the signal (touching nothing) exactly when a recorded
last-success timestamp is strictly less than the interval ago; with a
staler timestamp, or no recorded timestamp, a read is attempted. -/
theorem tier_interval_scheduling (now : ℚ) (scanIntervals : String → Option Int)
    (depKeys : String → Bool) (env : CycleEnv) (acc : CycleAcc) (sensor : SensorDef)
    (nm : String) (interval : Int)
    (henabled : env.isDisabled sensor.key = false)
    (hnm : sensor.scanInterval = Option.some nm) (hne : nm ≠ "")
    (hint : scanIntervals nm = Option.some interval) :
    (∀ t, acc.lastUpdateTimes sensor.key = Option.some t → now - t < (interval : ℚ) →
      processSensor now scanIntervals depKeys env acc sensor = acc)
    ∧ (∀ t, acc.lastUpdateTimes sensor.key = Option.some t → (interval : ℚ) ≤ now - t →
      (processSensor now scanIntervals depKeys env acc sensor).attemptedReads
        = acc.attemptedReads + 1)
    ∧ (acc.lastUpdateTimes sensor.key = Option.none →
      (processSensor now scanIntervals depKeys env acc sensor).attemptedReads
        = acc.attemptedReads + 1) := by
  refine ⟨?_, ?_, ?_⟩
  · intro t ht hlt
    have hd : pollDecision now scanIntervals depKeys acc.lastUpdateTimes
        (env.isDisabled sensor.key) sensor = .skipRecent := by
      simp [pollDecision, henabled, hnm, hne, hint, ht, hlt]
    simp [processSensor, hd]
  · intro t ht hge
    have hd : pollDecision now scanIntervals depKeys acc.lastUpdateTimes
        (env.isDisabled sensor.key) sensor = .attempt := by
      simp [pollDecision, henabled, hnm, hne, hint, ht, not_lt.mpr hge]
    simp [processSensor, hd, attemptRead_attempted]
  · intro hnone
    have hd : pollDecision now scanIntervals depKeys acc.lastUpdateTimes
        (env.isDisabled sensor.key) sensor = .attempt := by
      simp [pollDecision, henabled, hnm, hne, hint, hnone]
    simp [processSensor, hd, attemptRead_attempted]

def wIntervals30 : String → Option Int :=
  fun nm => if nm = "medium" then Option.some 30 else Option.none

def wSensorM : SensorDef :=
  { key := "a", register := 100, dataType := "uint16",
    countField := Option.none, scanInterval := Option.some "medium" }

def wAccSkip : CycleAcc :=
  { updatedData := [],
    lastUpdateTimes := fun k => if k = "a" then Option.some 90 else Option.none,
    attemptedReads := 0, successfulReads := 0, timeoutsInCycle := 0, readKeys := [] }

def wAccDue : CycleAcc :=
  { updatedData := [],
    lastUpdateTimes := fun k => if k = "a" then Option.some 69 else Option.none,
    attemptedReads := 0, successfulReads := 0, timeoutsInCycle := 0, readKeys := [] }

/-- C3 witness: with a 30 s tier interval at time 100, a last success at
90 (10 s ago) is skipped, a last success at 69 (31 s ago) is attempted. -/
theorem tier_interval_scheduling_witness :
    processSensor 100 wIntervals30 (fun _ => false) wEnvOkA wAccSkip wSensorM = wAccSkip
    ∧ (processSensor 100 wIntervals30 (fun _ => false) wEnvOkA wAccDue wSensorM).attemptedReads
      = wAccDue.attemptedReads + 1 := by
  have h1 := tier_interval_scheduling 100 wIntervals30 (fun _ => false) wEnvOkA wAccSkip
    wSensorM "medium" 30 rfl rfl (by decide) rfl
  have h2 := tier_interval_scheduling 100 wIntervals30 (fun _ => false) wEnvOkA wAccDue
    wSensorM "medium" 30 rfl rfl (by decide) rfl
  exact ⟨h1.1 90 rfl (by norm_num), h2.2.1 69 rfl (by norm_num)⟩

/-- Health logic of a cycle in which reads were attempted and all of
them failed: one reconnect is attempted; the failure streak becomes the
old streak plus one, except that a successful reconnect resets it to 0;
and whenever the resulting streak reaches the maximum the state is
suspended with a deadline one cooldown period ahead. -/
theorem healthUpdate_all_failed (st : CoordState) (now : ℚ) (a t : Nat)
    (ro : Nat → Bool) (b : Nat) (ha : 0 < a) :
    (healthUpdate st now a 0 t ro b).2 = 1
    ∧ (ro b = false → (healthUpdate st now a 0 t ro b).1.consecutiveFailures
        = st.consecutiveFailures + 1)
    ∧ (ro b = true → (healthUpdate st now a 0 t ro b).1.consecutiveFailures = 0)
    ∧ (MAX_CONSECUTIVE_FAILURES ≤ (healthUpdate st now a 0 t ro b).1.consecutiveFailures →
        (healthUpdate st now a 0 t ro b).1.connectionSuspended = true
        ∧ (healthUpdate st now a 0 t ro b).1.suspensionResetTime
          = Option.some (now + SUSPENSION_COOLDOWN_SECONDS)) := by
  simp only [healthUpdate, if_pos ha, if_neg (lt_irrefl 0)]
  cases hro : ro b
  · simp only [Bool.false_eq_true, if_neg (by decide : ¬ (false = true))]
    by_cases h5 : MAX_CONSECUTIVE_FAILURES ≤ st.consecutiveFailures + 1
    · simp [h5]
    · simp [h5]
  · simp only [if_pos rfl]
    have h5 : ¬ (MAX_CONSECUTIVE_FAILURES ≤ 0) := by decide
    simp [h5]

/-- Health logic of a cycle with at least one success: the timeout-cycle
counter increments exactly when the timeout ratio reaches the threshold
(and there was a timeout), resets to 0 otherwise; once it reaches the
maximum a reconnect is forced, after which the counter restarts at 0
only if the reconnect succeeded. -/
theorem healthUpdate_success (st : CoordState) (now : ℚ) (a s t : Nat)
    (ro : Nat → Bool) (b : Nat) (ha : 0 < a) (hs : 0 < s) :
    ((¬ (t ≠ 0 ∧ TIMEOUT_RATIO_RECONNECT_THRESHOLD ≤ (t : ℚ) / (a : ℚ))) →
        (healthUpdate st now a s t ro b).1.consecutiveTimeoutCycles = 0
        ∧ (healthUpdate st now a s t ro b).2 = 0)
    ∧ ((t ≠ 0 ∧ TIMEOUT_RATIO_RECONNECT_THRESHOLD ≤ (t : ℚ) / (a : ℚ)) →
        (st.consecutiveTimeoutCycles + 1 < MAX_CONSECUTIVE_TIMEOUT_CYCLES →
          (healthUpdate st now a s t ro b).1.consecutiveTimeoutCycles
            = st.consecutiveTimeoutCycles + 1
          ∧ (healthUpdate st now a s t ro b).2 = 0)
        ∧ (MAX_CONSECUTIVE_TIMEOUT_CYCLES ≤ st.consecutiveTimeoutCycles + 1 →
          (healthUpdate st now a s t ro b).2 = 1
          ∧ (ro b = true →
              (healthUpdate st now a s t ro b).1.consecutiveTimeoutCycles = 0)
          ∧ (ro b = false →
              (healthUpdate st now a s t ro b).1.consecutiveTimeoutCycles
                = st.consecutiveTimeoutCycles + 1)))
    ∧ (healthUpdate st now a s t ro b).1.consecutiveFailures = 0
    ∧ (healthUpdate st now a s t ro b).1.connectionSuspended = false := by
  simp only [healthUpdate, if_pos ha, if_pos hs]
  by_cases hcond : t ≠ 0 ∧ TIMEOUT_RATIO_RECONNECT_THRESHOLD ≤ (t : ℚ) / (a : ℚ)
  · rw [if_pos hcond]
    by_cases h3 : MAX_CONSECUTIVE_TIMEOUT_CYCLES ≤ st.consecutiveTimeoutCycles + 1
    · rw [if_pos h3]
      cases hro : ro b
      · simp only [Bool.false_eq_true, if_neg (by decide : ¬ (false = true))]
        refine ⟨fun hn => absurd hcond hn, fun _ => ⟨fun hlt => absurd h3 (by omega), fun _ =>
          ⟨rfl, fun h => absurd h (by decide), fun _ => rfl⟩⟩, rfl, rfl⟩
      · simp only [if_pos rfl]
        refine ⟨fun hn => absurd hcond hn, fun _ => ⟨fun hlt => absurd h3 (by omega), fun _ =>
          ⟨rfl, fun _ => rfl, fun h => absurd h (by decide)⟩⟩, rfl, rfl⟩
    · rw [if_neg h3]
      refine ⟨fun hn => absurd hcond hn, fun _ => ⟨fun _ => ⟨rfl, rfl⟩, fun hge =>
        absurd hge h3⟩, rfl, rfl⟩
  · rw [if_neg hcond]
    have h3 : ¬ (MAX_CONSECUTIVE_TIMEOUT_CYCLES ≤ 0) := by decide
    rw [if_neg h3]
    exact ⟨fun _ => ⟨rfl, rfl⟩, fun hc => absurd hc hcond, rfl, rfl⟩

/-- C4 (amended): in a non-suspended cycle with attempted > 0 and
succeeded = 0, the failure streak is incremented and exactly one
immediate reconnect is attempted; a successful reconnect resets the
streak back to 0; whenever the resulting streak reaches the maximum of
5 the state becomes Suspended with a deadline 300 seconds ahead; and
while Suspended before the deadline the whole cycle is skipped: no
reads, no reconnects, state unchanged. -/
theorem all_failed_cycle_streak_and_suspension (st : CoordState) (now : ℚ)
    (scanIntervals : String → Option Int) (defs : List SensorDef)
    (depKeys : String → Bool) (env : CycleEnv)
    (hns : st.connectionSuspended = false)
    (ha : 0 < (updateData st now scanIntervals defs depKeys env).attempted)
    (hs : (updateData st now scanIntervals defs depKeys env).succeeded = 0) :
    (updateData st now scanIntervals defs depKeys env).reconnects = 1
    ∧ (env.reconnectOk 0 = false →
        (updateData st now scanIntervals defs depKeys env).state.consecutiveFailures
          = st.consecutiveFailures + 1)
    ∧ (env.reconnectOk 0 = true →
        (updateData st now scanIntervals defs depKeys env).state.consecutiveFailures = 0)
    ∧ (MAX_CONSECUTIVE_FAILURES ≤
        (updateData st now scanIntervals defs depKeys env).state.consecutiveFailures →
        (updateData st now scanIntervals defs depKeys env).state.connectionSuspended = true
        ∧ (updateData st now scanIntervals defs depKeys env).state.suspensionResetTime
          = Option.some (now + SUSPENSION_COOLDOWN_SECONDS))
    ∧ ∀ (st2 : CoordState) (d : ℚ), st2.connectionSuspended = true →
        st2.suspensionResetTime = Option.some d → now ≤ d →
        updateData st2 now scanIntervals defs depKeys env
          = { state := st2, readKeys := [], reconnects := 0, attempted := 0,
              succeeded := 0, timeouts := 0 } := by
  have hru : updateData st now scanIntervals defs depKeys env
      = runCycle st now scanIntervals defs depKeys env 0 := by
    simp [updateData, hns]
  rw [hru] at ha hs ⊢
  simp only [runCycle] at ha hs ⊢
  rw [hs]
  have h := healthUpdate_all_failed st now
    (List.foldl (processSensor now scanIntervals depKeys env)
      { updatedData := [], lastUpdateTimes := st.lastUpdateTimes, attemptedReads := 0,
        successfulReads := 0, timeoutsInCycle := 0, readKeys := [] } defs).attemptedReads
    (List.foldl (processSensor now scanIntervals depKeys env)
      { updatedData := [], lastUpdateTimes := st.lastUpdateTimes, attemptedReads := 0,
        successfulReads := 0, timeoutsInCycle := 0, readKeys := [] } defs).timeoutsInCycle
    env.reconnectOk 0 ha
  refine ⟨by rw [h.1], fun hro => by rw [h.2.1 hro], fun hro => by rw [h.2.2.1 hro],
    fun h5 => h.2.2.2 h5, fun st2 d hs2 hd2 hle => ?_⟩
  simp only [updateData, hs2, hd2, if_pos]
  rw [if_neg (not_lt.mpr hle)]

def wState4 : CoordState :=
  { data := fun _ => Option.none, lastUpdateTimes := fun _ => Option.none,
    consecutiveFailures := 4, connectionSuspended := false,
    suspensionResetTime := Option.none, consecutiveTimeoutCycles := 0,
    lastSuccessfulRead := Option.none }

/-- C4 witness: a fifth consecutive all-failed cycle with a failed
reconnect suspends the coordinator with a deadline 300 s ahead. -/
theorem all_failed_cycle_streak_and_suspension_witness :
    (updateData wState4 1000 wIntervals [wSensorA] (fun _ => false)
      wEnvFailA).state.connectionSuspended = true
    ∧ (updateData wState4 1000 wIntervals [wSensorA] (fun _ => false)
      wEnvFailA).state.suspensionResetTime
        = Option.some (1000 + SUSPENSION_COOLDOWN_SECONDS) := by
  have h := all_failed_cycle_streak_and_suspension wState4 1000 wIntervals [wSensorA]
    (fun _ => false) wEnvFailA rfl (by decide) (by decide)
  exact h.2.2.2.1 (by decide)

def wEnvFailReconnectOk : CycleEnv :=
  { isDisabled := fun _ => false, readOutcome := fun _ => ReadValueOutcome.exc,
    reconnectOk := fun _ => true }

/-- C4 counterexample: in an all-failed cycle (attempted 1, succeeded 0)
whose immediate reconnect succeeds, the post-cycle failure streak is 0,
not the incremented value 1 the claim asserts. -/
theorem failure_streak_not_incremented_counterexample :
    (updateData wEmptyState 0 wIntervals [wSensorA] (fun _ => false)
      wEnvFailReconnectOk).attempted = 1
    ∧ (updateData wEmptyState 0 wIntervals [wSensorA] (fun _ => false)
      wEnvFailReconnectOk).succeeded = 0
    ∧ (updateData wEmptyState 0 wIntervals [wSensorA] (fun _ => false)
      wEnvFailReconnectOk).reconnects = 1
    ∧ (updateData wEmptyState 0 wIntervals [wSensorA] (fun _ => false)
      wEnvFailReconnectOk).state.consecutiveFailures = 0 := by
  exact ⟨rfl, rfl, rfl, rfl⟩

/-- C5 (amended): for a Suspended state whose deadline has passed, the
next cycle clears the suspension flag, resets the failure streak to 0 and
attempts one reconnect; if the reconnect succeeds the cycle proceeds to
poll from that healthy state; if it fails the cycle ends immediately with
no polling, the suspension flag left cleared and the old deadline
unchanged (not extended). -/
theorem suspension_expiry_one_reconnect (st : CoordState) (now : ℚ)
    (scanIntervals : String → Option Int) (defs : List SensorDef)
    (depKeys : String → Bool) (env : CycleEnv) (d : ℚ)
    (hsus : st.connectionSuspended = true)
    (hd : st.suspensionResetTime = Option.some d) (hlt : d < now) :
    (env.reconnectOk 0 = true →
      updateData st now scanIntervals defs depKeys env
        = runCycle { st with connectionSuspended := false, consecutiveFailures := 0 }
            now scanIntervals defs depKeys env 1)
    ∧ (env.reconnectOk 0 = false →
      updateData st now scanIntervals defs depKeys env
        = { state := { st with connectionSuspended := false, consecutiveFailures := 0 },
            readKeys := [], reconnects := 1, attempted := 0, succeeded := 0,
            timeouts := 0 })
    ∧ 1 ≤ (updateData st now scanIntervals defs depKeys env).reconnects := by
  have hbase : ∀ hro : Bool, env.reconnectOk 0 = hro →
      updateData st now scanIntervals defs depKeys env
        = (if env.reconnectOk 0 then
            runCycle { st with connectionSuspended := false, consecutiveFailures := 0 }
              now scanIntervals defs depKeys env 1
          else
            { state := { st with connectionSuspended := false, consecutiveFailures := 0 },
              readKeys := [], reconnects := 1, attempted := 0, succeeded := 0,
              timeouts := 0 }) := by
    intro hro _
    simp only [updateData, hsus, hd, if_pos]
    rw [if_pos hlt]
  refine ⟨fun hro => ?_, fun hro => ?_, ?_⟩
  · rw [hbase true hro, if_pos hro]
  · rw [hbase false hro, if_neg (by rw [hro]; exact fun h => Bool.noConfusion h)]
  · cases hro : env.reconnectOk 0
    · rw [hbase false hro, if_neg (by rw [hro]; exact fun h => Bool.noConfusion h)]
    · rw [hbase true hro, if_pos hro]
      simp only [runCycle]
      omega

def wStateSusp : CoordState :=
  { data := fun _ => Option.none, lastUpdateTimes := fun _ => Option.none,
    consecutiveFailures := 5, connectionSuspended := true,
    suspensionResetTime := Option.some 100, consecutiveTimeoutCycles := 0,
    lastSuccessfulRead := Option.none }

/-- C5 witness: deadline 100, now 200, reconnect fails: one reconnect was
attempted and the cycle ends with the suspension flag cleared. -/
theorem suspension_expiry_one_reconnect_witness :
    updateData wStateSusp 200 wIntervals [wSensorA] (fun _ => false) wEnvFailA
      = { state := { wStateSusp with connectionSuspended := false, consecutiveFailures := 0 },
          readKeys := [], reconnects := 1, attempted := 0, succeeded := 0,
          timeouts := 0 } :=
  (suspension_expiry_one_reconnect wStateSusp 200 wIntervals [wSensorA]
    (fun _ => false) wEnvFailA 100 rfl rfl (by norm_num)).2.1 rfl

/-- C5 counterexample: the claim says a failed post-deadline reconnect
keeps the state Suspended and extends the deadline by the cooldown
period; in fact the suspension flag is cleared and the deadline is left
at its old value 100 (not 100 + 300). -/
theorem suspension_not_kept_counterexample :
    (updateData wStateSusp 200 wIntervals [wSensorA] (fun _ => false)
      wEnvFailA).state.connectionSuspended = false
    ∧ (updateData wStateSusp 200 wIntervals [wSensorA] (fun _ => false)
      wEnvFailA).state.suspensionResetTime = Option.some 100 := by
  exact ⟨rfl, rfl⟩

/-- C6 (amended): in a non-suspended cycle with succeeded > 0, the
timeout-cycle counter increments when the timeout ratio is at least 0.5
(with at least one timeout) and resets to 0 otherwise; when the counter
reaches 3 exactly one reconnect is forced, after which the counter is
reset to 0 only if that reconnect succeeded — a failed forced reconnect
leaves the counter at its incremented value. -/
theorem timeout_ratio_reconnect (st : CoordState) (now : ℚ)
    (scanIntervals : String → Option Int) (defs : List SensorDef)
    (depKeys : String → Bool) (env : CycleEnv)
    (hns : st.connectionSuspended = false)
    (ha : 0 < (updateData st now scanIntervals defs depKeys env).attempted)
    (hs : 0 < (updateData st now scanIntervals defs depKeys env).succeeded) :
    ((¬ ((updateData st now scanIntervals defs depKeys env).timeouts ≠ 0
        ∧ TIMEOUT_RATIO_RECONNECT_THRESHOLD ≤
          ((updateData st now scanIntervals defs depKeys env).timeouts : ℚ)
            / ((updateData st now scanIntervals defs depKeys env).attempted : ℚ))) →
        (updateData st now scanIntervals defs depKeys env).state.consecutiveTimeoutCycles = 0
        ∧ (updateData st now scanIntervals defs depKeys env).reconnects = 0)
    ∧ (((updateData st now scanIntervals defs depKeys env).timeouts ≠ 0
        ∧ TIMEOUT_RATIO_RECONNECT_THRESHOLD ≤
          ((updateData st now scanIntervals defs depKeys env).timeouts : ℚ)
            / ((updateData st now scanIntervals defs depKeys env).attempted : ℚ)) →
        (st.consecutiveTimeoutCycles + 1 < MAX_CONSECUTIVE_TIMEOUT_CYCLES →
          (updateData st now scanIntervals defs depKeys env).state.consecutiveTimeoutCycles
            = st.consecutiveTimeoutCycles + 1
          ∧ (updateData st now scanIntervals defs depKeys env).reconnects = 0)
        ∧ (MAX_CONSECUTIVE_TIMEOUT_CYCLES ≤ st.consecutiveTimeoutCycles + 1 →
          (updateData st now scanIntervals defs depKeys env).reconnects = 1
          ∧ (env.reconnectOk 0 = true →
              (updateData st now scanIntervals defs depKeys env).state.consecutiveTimeoutCycles
                = 0)
          ∧ (env.reconnectOk 0 = false →
              (updateData st now scanIntervals defs depKeys env).state.consecutiveTimeoutCycles
                = st.consecutiveTimeoutCycles + 1))) := by
  have hru : updateData st now scanIntervals defs depKeys env
      = runCycle st now scanIntervals defs depKeys env 0 := by
    simp [updateData, hns]
  rw [hru] at ha hs ⊢
  simp only [runCycle] at ha hs ⊢
  have h := healthUpdate_success st now
    (List.foldl (processSensor now scanIntervals depKeys env)
      { updatedData := [], lastUpdateTimes := st.lastUpdateTimes, attemptedReads := 0,
        successfulReads := 0, timeoutsInCycle := 0, readKeys := [] } defs).attemptedReads
    (List.foldl (processSensor now scanIntervals depKeys env)
      { updatedData := [], lastUpdateTimes := st.lastUpdateTimes, attemptedReads := 0,
        successfulReads := 0, timeoutsInCycle := 0, readKeys := [] } defs).successfulReads
    (List.foldl (processSensor now scanIntervals depKeys env)
      { updatedData := [], lastUpdateTimes := st.lastUpdateTimes, attemptedReads := 0,
        successfulReads := 0, timeoutsInCycle := 0, readKeys := [] } defs).timeoutsInCycle
    env.reconnectOk 0 ha hs
  refine ⟨fun hn => ⟨(h.1 hn).1, by rw [(h.1 hn).2]⟩, fun hc =>
    ⟨fun hlt => ⟨((h.2.1 hc).1 hlt).1, by rw [((h.2.1 hc).1 hlt).2]⟩, fun hge =>
      ⟨by rw [((h.2.1 hc).2 hge).1], ((h.2.1 hc).2 hge).2.1, ((h.2.1 hc).2 hge).2.2⟩⟩⟩

def wSensorB : SensorDef :=
  { key := "b", register := 101, dataType := "uint16",
    countField := Option.none, scanInterval := Option.some "fast" }

def wStateTc2 : CoordState :=
  { data := fun _ => Option.none, lastUpdateTimes := fun _ => Option.none,
    consecutiveFailures := 0, connectionSuspended := false,
    suspensionResetTime := Option.none, consecutiveTimeoutCycles := 2,
    lastSuccessfulRead := Option.none }

def wEnvMixed : CycleEnv :=
  { isDisabled := fun _ => false,
    readOutcome := fun k => if k = "a" then ReadValueOutcome.result (PyObj.int 1)
      else ReadValueOutcome.timeout,
    reconnectOk := fun _ => false }

/-- C6 witness: two attempted reads, one success and one timeout (ratio
0.5), with the counter at 2: the counter reaches 3 and one reconnect is
forced; it fails, and the counter keeps its value 3. -/
theorem timeout_ratio_reconnect_witness :
    (updateData wStateTc2 0 wIntervals [wSensorA, wSensorB] (fun _ => false)
      wEnvMixed).reconnects = 1
    ∧ (updateData wStateTc2 0 wIntervals [wSensorA, wSensorB] (fun _ => false)
      wEnvMixed).state.consecutiveTimeoutCycles
        = wStateTc2.consecutiveTimeoutCycles + 1 := by
  have h := timeout_ratio_reconnect wStateTc2 0 wIntervals [wSensorA, wSensorB]
    (fun _ => false) wEnvMixed rfl (by decide) (by decide)
  have ht : (updateData wStateTc2 0 wIntervals [wSensorA, wSensorB] (fun _ => false)
      wEnvMixed).timeouts = 1 := rfl
  have hA : (updateData wStateTc2 0 wIntervals [wSensorA, wSensorB] (fun _ => false)
      wEnvMixed).attempted = 2 := rfl
  have hc : (updateData wStateTc2 0 wIntervals [wSensorA, wSensorB] (fun _ => false)
        wEnvMixed).timeouts ≠ 0
      ∧ TIMEOUT_RATIO_RECONNECT_THRESHOLD ≤
        ((updateData wStateTc2 0 wIntervals [wSensorA, wSensorB] (fun _ => false)
          wEnvMixed).timeouts : ℚ)
          / ((updateData wStateTc2 0 wIntervals [wSensorA, wSensorB] (fun _ => false)
            wEnvMixed).attempted : ℚ) := by
    rw [ht, hA]
    constructor
    · omega
    · norm_num [TIMEOUT_RATIO_RECONNECT_THRESHOLD]
  exact ⟨((h.2 hc).2 (by decide)).1, ((h.2 hc).2 (by decide)).2.2 rfl⟩

/-- C6 counterexample: the claim says the counter is reset to 0 regardless
of whether the forced reconnect succeeds or fails; with the forced
reconnect failing the counter remains 3, not 0. -/
theorem timeout_counter_not_reset_counterexample :
    (updateData wStateTc2 0 wIntervals [wSensorA, wSensorB] (fun _ => false)
      wEnvMixed).succeeded = 1
    ∧ (updateData wStateTc2 0 wIntervals [wSensorA, wSensorB] (fun _ => false)
      wEnvMixed).attempted = 2
    ∧ (updateData wStateTc2 0 wIntervals [wSensorA, wSensorB] (fun _ => false)
      wEnvMixed).reconnects = 1
    ∧ (updateData wStateTc2 0 wIntervals [wSensorA, wSensorB] (fun _ => false)
      wEnvMixed).state.consecutiveTimeoutCycles = 3 := by
  have h := healthUpdate_success wStateTc2 0 2 1 1 wEnvMixed.reconnectOk 0
    (by norm_num) (by norm_num)
  have hcond : (1 : Nat) ≠ 0
      ∧ TIMEOUT_RATIO_RECONNECT_THRESHOLD ≤ ((1 : Nat) : ℚ) / ((2 : Nat) : ℚ) :=
    ⟨by norm_num, by norm_num [TIMEOUT_RATIO_RECONNECT_THRESHOLD]⟩
  have hforced := (h.2.1 hcond).2 (by decide)
  refine ⟨rfl, rfl, ?_, ?_⟩
  · show (runCycle wStateTc2 0 wIntervals [wSensorA, wSensorB] (fun _ => false)
      wEnvMixed 0).reconnects = 1
    simp only [runCycle]
    rw [show (List.foldl
        (processSensor 0 wIntervals (fun _ => false) wEnvMixed)
        { updatedData := [], lastUpdateTimes := wStateTc2.lastUpdateTimes,
          attemptedReads := 0, successfulReads := 0, timeoutsInCycle := 0, readKeys := [] }
        [wSensorA, wSensorB]).attemptedReads = 2 from rfl,
      show (List.foldl
        (processSensor 0 wIntervals (fun _ => false) wEnvMixed)
        { updatedData := [], lastUpdateTimes := wStateTc2.lastUpdateTimes,
          attemptedReads := 0, successfulReads := 0, timeoutsInCycle := 0, readKeys := [] }
        [wSensorA, wSensorB]).successfulReads = 1 from rfl,
      show (List.foldl
        (processSensor 0 wIntervals (fun _ => false) wEnvMixed)
        { updatedData := [], lastUpdateTimes := wStateTc2.lastUpdateTimes,
          attemptedReads := 0, successfulReads := 0, timeoutsInCycle := 0, readKeys := [] }
        [wSensorA, wSensorB]).timeoutsInCycle = 1 from rfl,
      hforced.1]
  · show (runCycle wStateTc2 0 wIntervals [wSensorA, wSensorB] (fun _ => false)
      wEnvMixed 0).state.consecutiveTimeoutCycles = 3
    simp only [runCycle]
    rw [show (List.foldl
        (processSensor 0 wIntervals (fun _ => false) wEnvMixed)
        { updatedData := [], lastUpdateTimes := wStateTc2.lastUpdateTimes,
          attemptedReads := 0, successfulReads := 0, timeoutsInCycle := 0, readKeys := [] }
        [wSensorA, wSensorB]).attemptedReads = 2 from rfl,
      show (List.foldl
        (processSensor 0 wIntervals (fun _ => false) wEnvMixed)
        { updatedData := [], lastUpdateTimes := wStateTc2.lastUpdateTimes,
          attemptedReads := 0, successfulReads := 0, timeoutsInCycle := 0, readKeys := [] }
        [wSensorA, wSensorB]).successfulReads = 1 from rfl,
      show (List.foldl
        (processSensor 0 wIntervals (fun _ => false) wEnvMixed)
        { updatedData := [], lastUpdateTimes := wStateTc2.lastUpdateTimes,
          attemptedReads := 0, successfulReads := 0, timeoutsInCycle := 0, readKeys := [] }
        [wSensorA, wSensorB]).timeoutsInCycle = 1 from rfl]
    exact hforced.2.2 rfl

/-- C7 witness: address 70000 (and count 200, value 70000) are rejected with
zero network activity. -/
theorem validation_rejected_before_io_witness :
    async_read_register 70000 "uint16" (Option.some 200) Option.none MAX_RETRIES
      (fun _ => ⟨true, true, .noResponse⟩) = (.value PyObj.none, [])
    ∧ async_write_register 70000 70000 MAX_RETRIES
      (fun _ => ⟨true, true, .noResponse⟩) = (false, []) := by
  have h := validation_rejected_before_io 70000 200 70000 "uint16" Option.none
    (fun _ => ⟨true, true, .noResponse⟩)
  exact ⟨h.1 (by omega), h.2 (by omega)⟩

end Marstek
